import Mathlib

/-!
A verification development for the PrepGenius job-opportunity refresh
pipeline.  The TypeScript source is shallowly embedded: pure string
manipulation is translated directly, the Gemini API and the HTTP/database
layers are modelled as explicit environments, and the persisted store is an
explicit state record threaded through the orchestrator functions.
Timestamps are integers (milliseconds); `postedDate` values are kept as ISO
date strings, whose lexicographic order agrees with chronological order.
-/

set_option maxRecDepth 10000

/-! ## Basic string helpers (JS semantics) -/

/-- Does the character list start with the given pattern? -/
def charsStartWith : List Char → List Char → Bool
  | _, [] => true
  | [], _ :: _ => false
  | c :: cs, p :: ps => c == p && charsStartWith cs ps

/-- Does the character list contain the pattern as a contiguous run? -/
def charsContain : List Char → List Char → Bool
  | [], pat => charsStartWith [] pat
  | c :: cs, pat => charsStartWith (c :: cs) pat || charsContain cs pat

/-- Model of JavaScript `String.prototype.includes`. -/
def jsIncludes (s pat : String) : Bool :=
  charsContain s.data pat.data

/-- Drop leading whitespace characters. -/
def trimLeadingWs : List Char → List Char
  | [] => []
  | c :: cs => if c.isWhitespace then trimLeadingWs cs else c :: cs

/-- Model of JavaScript `String.prototype.trim`. -/
def jsTrim (s : String) : String :=
  String.mk (trimLeadingWs ((trimLeadingWs s.data.reverse).reverse))

/-- Model of `s.charAt(0).toUpperCase() + s.slice(1)`. -/
def capFirst (s : String) : String :=
  match s.data with
  | [] => ""
  | c :: cs => String.mk (c.toUpper :: cs)

/-- One pass of `replace(/\s+/g, "-")`: the flag records whether the
previous character was whitespace (a run is replaced by a single dash). -/
def hyphenateGo : Bool → List Char → List Char
  | _, [] => []
  | prevWs, c :: cs =>
    if c.isWhitespace then
      if prevWs then hyphenateGo true cs else '-' :: hyphenateGo true cs
    else c :: hyphenateGo false cs

/-- Model of JavaScript `s.replace(/\s+/g, "-")`. -/
def hyphenateSpaces (s : String) : String :=
  String.mk (hyphenateGo false s.data)

/-- Uppercase hex digit for percent-encoding. -/
def hexDigitChar (n : Nat) : Char :=
  if n < 10 then Char.ofNat (48 + n) else Char.ofNat (55 + n)

/-- Characters that `encodeURIComponent` leaves unescaped. -/
def isUriUnreserved (c : Char) : Bool :=
  c.isAlphanum || c == '-' || c == '_' || c == '.' || c == '!' ||
    c == '~' || c == '*' || c == Char.ofNat 39 || c == '(' || c == ')'

/-- Model of JavaScript `encodeURIComponent`, for the ASCII inputs the
pipeline feeds it (single-byte percent escapes). -/
def jsEncodeURIComponent (s : String) : String :=
  String.mk (s.data.foldr
    (fun c acc =>
      if isUriUnreserved c then c :: acc
      else '%' :: hexDigitChar (c.toNat / 16 % 16) :: hexDigitChar (c.toNat % 16) :: acc)
    [])

/-! ## Text Generation Gateway

`generateWithModelFallback` exists in two variants in the source: the
cover-letter actions module has a 429 (rate-limit) branch that waits 2000 ms
before moving to the next model and returns the trimmed response text, while
the dashboard actions module (used by the insight and job pipelines) has no
rate-limit branch and returns the raw text.  The Gemini call itself is an
external capability, modelled as an environment mapping each model name to
an outcome. -/

/-- Outcome of one `model.generateContent(prompt)` call: the produced text,
or a thrown error carrying a message and an optional HTTP status. -/
inductive GenOutcome where
  | success (text : String)
  | failure (message : String) (status : Option Nat)
deriving DecidableEq

/-- Is the outcome a success? -/
def GenOutcome.isSuccess : GenOutcome → Bool
  | GenOutcome.success _ => true
  | GenOutcome.failure _ _ => false

/-- The source's 404 test: `errorMessage.includes("404") || errorStatus === 404`. -/
def errorIs404 (message : String) (status : Option Nat) : Bool :=
  jsIncludes message "404" || status == some 404

/-- The source's 429 test: `errorMessage.includes("429") || errorStatus === 429`. -/
def errorIs429 (message : String) (status : Option Nat) : Bool :=
  jsIncludes message "429" || status == some 429

/-- A failure that the gateway's branch order classifies as rate-limited
(the 404 test runs first in the source). -/
def GenOutcome.isRateLimitedFailure : GenOutcome → Bool
  | GenOutcome.success _ => false
  | GenOutcome.failure message status =>
      !errorIs404 message status && errorIs429 message status

/-- Observable run of one gateway invocation: the returned text (`none`
models the final `throw new Error("All Gemini models failed")`), how many
candidate models were invoked, and the waits performed, in order. -/
structure GatewayRun where
  result : Option String
  invoked : Nat
  waitsMs : List Nat
deriving DecidableEq

/-- The fixed ranked model list both gateway variants iterate. -/
def modelsToTry : List String :=
  ["gemini-1.5-flash", "gemini-1.5-pro", "gemini-pro", "gemini-2.0-flash-exp"]

namespace CoverLetterActions

/-- The candidate loop of the cover-letter variant: success returns the
trimmed text at once; a 404 advances; a 429 waits 2000 ms then advances;
any other failure advances. -/
def tryModels (env : String → GenOutcome) : List String → GatewayRun
  | [] => { result := none, invoked := 0, waitsMs := [] }
  | name :: rest =>
    match env name with
    | GenOutcome.success text =>
        { result := some (jsTrim text), invoked := 1, waitsMs := [] }
    | GenOutcome.failure message status =>
        let r := tryModels env rest
        if errorIs404 message status then
          { r with invoked := r.invoked + 1 }
        else if errorIs429 message status then
          { r with invoked := r.invoked + 1, waitsMs := 2000 :: r.waitsMs }
        else
          { r with invoked := r.invoked + 1 }

/-- Cover-letter `generateWithModelFallback`: the loop over `modelsToTry`. -/
def generateWithModelFallback (env : String → GenOutcome) : GatewayRun :=
  tryModels env modelsToTry

end CoverLetterActions

namespace DashboardActions

/-- The candidate loop of the dashboard variant: success returns the raw
(untrimmed) text at once; a 404 advances; any other failure also advances,
with no wait — this variant has no rate-limit branch. -/
def tryModels (env : String → GenOutcome) : List String → GatewayRun
  | [] => { result := none, invoked := 0, waitsMs := [] }
  | name :: rest =>
    match env name with
    | GenOutcome.success text =>
        { result := some text, invoked := 1, waitsMs := [] }
    | GenOutcome.failure message status =>
        let r := tryModels env rest
        if errorIs404 message status then
          { r with invoked := r.invoked + 1 }
        else
          { r with invoked := r.invoked + 1 }

/-- Dashboard `generateWithModelFallback`: the loop over `modelsToTry`. -/
def generateWithModelFallback (env : String → GenOutcome) : GatewayRun :=
  tryModels env modelsToTry

end DashboardActions

/-! ## JSON values and `JSON.parse`

The pipeline's responses are parsed with `JSON.parse` after stripping code
fences.  JSON values are modelled faithfully enough for the pipeline:
numbers keep an integer part and the literal digits of an optional
fraction; `\u` escapes and exponents are not modelled (no input of the
pipeline uses them). -/

/-- A JSON value. -/
inductive Json where
  | null
  | bool (b : Bool)
  | num (intPart : Int) (fracDigits : String)
  | str (s : String)
  | arr (items : List Json)
  | obj (fields : List (String × Json))

/-- The literal open-brace character. -/
def openBraceChar : Char := Char.ofNat 123

/-- The literal close-brace character. -/
def closeBraceChar : Char := Char.ofNat 125

/-- Skip JSON whitespace. -/
def skipJsonWs : List Char → List Char
  | [] => []
  | c :: cs =>
    if c == ' ' || c == '\n' || c == '\t' || c == '\r' then skipJsonWs cs
    else c :: cs

/-- Decode a JSON string escape character. -/
def unescapeJsonChar (c : Char) : Char :=
  if c == 'n' then '\n'
  else if c == 't' then '\t'
  else if c == 'r' then '\r'
  else if c == 'b' then Char.ofNat 8
  else if c == 'f' then Char.ofNat 12
  else c

/-- Scan a JSON string body (after the opening quote), accumulating
characters in reverse. -/
def parseJsonStringGo (acc : List Char) : List Char → Option (String × List Char)
  | [] => none
  | c :: cs =>
    if c == '"' then some (String.mk acc.reverse, cs)
    else if c == '\\' then
      match cs with
      | [] => none
      | e :: cs2 => parseJsonStringGo (unescapeJsonChar e :: acc) cs2
    else parseJsonStringGo (c :: acc) cs

/-- Parse a JSON string body after the opening quote. -/
def parseJsonString (input : List Char) : Option (String × List Char) :=
  parseJsonStringGo [] input

/-- Split a leading run of decimal digits from the rest. -/
def takeDigits : List Char → (List Char × List Char)
  | [] => ([], [])
  | c :: cs =>
    if c.isDigit then
      let p := takeDigits cs
      (c :: p.1, p.2)
    else ([], c :: cs)

/-- Decimal digits to a natural number. -/
def digitsToNat (ds : List Char) : Nat :=
  ds.foldl (fun acc c => acc * 10 + (c.toNat - 48)) 0

/-- Parse a JSON number (optional minus, digits, optional fraction). -/
def parseJsonNumber (input : List Char) : Option (Json × List Char) :=
  let signed : Bool × List Char :=
    match input with
    | c :: cs => if c == '-' then (true, cs) else (false, input)
    | [] => (false, input)
  match takeDigits signed.2 with
  | ([], _) => none
  | (ds, rest1) =>
    let n : Int := Int.ofNat (digitsToNat ds)
    let value : Int := if signed.1 then -n else n
    match rest1 with
    | c :: cs =>
      if c == '.' then
        match takeDigits cs with
        | ([], _) => none
        | (fs, rest2) => some (Json.num value (String.mk fs), rest2)
      else some (Json.num value "", rest1)
    | [] => some (Json.num value "", rest1)

mutual

/-- Parse one JSON value; the fuel bounds the recursion and exceeds the
input length at the top-level call. -/
def parseJsonValue : Nat → List Char → Option (Json × List Char)
  | 0, _ => none
  | fuel + 1, input =>
    match skipJsonWs input with
    | [] => none
    | c :: cs =>
      if c == 'n' then
        if charsStartWith cs ['u', 'l', 'l'] then some (Json.null, cs.drop 3) else none
      else if c == 't' then
        if charsStartWith cs ['r', 'u', 'e'] then some (Json.bool true, cs.drop 3) else none
      else if c == 'f' then
        if charsStartWith cs ['a', 'l', 's', 'e'] then some (Json.bool false, cs.drop 4) else none
      else if c == '"' then
        match parseJsonString cs with
        | some (s, rest) => some (Json.str s, rest)
        | none => none
      else if c == '[' then
        match skipJsonWs cs with
        | ']' :: rest => some (Json.arr [], rest)
        | _ =>
          match parseJsonArrayItems fuel cs with
          | some (vs, rest) => some (Json.arr vs, rest)
          | none => none
      else if c == openBraceChar then
        match skipJsonWs cs with
        | d :: rest =>
          if d == closeBraceChar then some (Json.obj [], rest)
          else
            match parseJsonObjectFields fuel cs with
            | some (fs, rest2) => some (Json.obj fs, rest2)
            | none => none
        | [] => none
      else if c == '-' || c.isDigit then
        parseJsonNumber (c :: cs)
      else none

/-- Parse the items of a non-empty JSON array, up to the closing bracket. -/
def parseJsonArrayItems : Nat → List Char → Option (List Json × List Char)
  | 0, _ => none
  | fuel + 1, input =>
    match parseJsonValue fuel input with
    | none => none
    | some (v, rest) =>
      match skipJsonWs rest with
      | ',' :: rest2 =>
        match parseJsonArrayItems fuel rest2 with
        | some (vs, rest3) => some (v :: vs, rest3)
        | none => none
      | ']' :: rest2 => some ([v], rest2)
      | _ => none

/-- Parse the fields of a non-empty JSON object, up to the closing brace. -/
def parseJsonObjectFields : Nat → List Char → Option (List (String × Json) × List Char)
  | 0, _ => none
  | fuel + 1, input =>
    match skipJsonWs input with
    | c :: cs =>
      if c == '"' then
        match parseJsonString cs with
        | none => none
        | some (key, rest) =>
          match skipJsonWs rest with
          | ':' :: rest2 =>
            match parseJsonValue fuel rest2 with
            | none => none
            | some (v, rest3) =>
              match skipJsonWs rest3 with
              | d :: rest4 =>
                if d == ',' then
                  match parseJsonObjectFields fuel rest4 with
                  | some (fs, rest5) => some ((key, v) :: fs, rest5)
                  | none => none
                else if d == closeBraceChar then some ([(key, v)], rest4)
                else none
              | [] => none
          | _ => none
      else none
    | [] => none

end

/-- Model of `JSON.parse`: parse one value and require only whitespace
after it; `none` models the thrown `SyntaxError`. -/
def jsonParse (s : String) : Option Json :=
  match parseJsonValue (s.length + 1) s.data with
  | some (v, rest) => if skipJsonWs rest == [] then some v else none
  | none => none

/-- Field lookup on a JSON object (`undefined` is `none`). -/
def Json.getField (v : Json) (key : String) : Option Json :=
  match v with
  | Json.obj fields => fields.lookup key
  | _ => none

/-- JavaScript truthiness of a JSON value. -/
def Json.isTruthy : Json → Bool
  | Json.null => false
  | Json.bool b => b
  | Json.num n f => !(n == 0 && f.data.all (fun c => c == '0'))
  | Json.str s => !(s == "")
  | Json.arr _ => true
  | Json.obj _ => true

/-- Model of `Array.isArray`. -/
def Json.isArr : Json → Bool
  | Json.arr _ => true
  | _ => false

/-- The items of an array value (empty for non-arrays). -/
def Json.asArr : Json → List Json
  | Json.arr items => items
  | _ => []

/-- The string content of a string value. -/
def Json.asString : Json → Option String
  | Json.str s => some s
  | _ => none

/-! ## Insight/Job response cleaning -/

/-- The literal backtick character. -/
def backtickChar : Char := Char.ofNat 96

/-- After a triple backtick, the regex consumes an optional literal
`json` tag. -/
def dropJsonTag (cs : List Char) : List Char :=
  if charsStartWith cs ['j', 's', 'o', 'n'] then cs.drop 4 else cs

/-- After the fence (and optional tag), the regex consumes an optional
newline. -/
def dropNewlineOpt : List Char → List Char
  | c :: cs => if c == '\n' then cs else c :: cs
  | [] => []

/-- Left-to-right scan deleting every match of the source's global regex
for code fences; the fuel (initially the input length) only bounds the
recursion. -/
def stripFencesGo : Nat → List Char → List Char
  | 0, rest => rest
  | _ + 1, [] => []
  | fuel + 1, c :: cs =>
    if c == backtickChar then
      match cs with
      | c2 :: c3 :: rest =>
        if c2 == backtickChar && c3 == backtickChar then
          stripFencesGo fuel (dropNewlineOpt (dropJsonTag rest))
        else c :: stripFencesGo fuel cs
      | _ => c :: stripFencesGo fuel cs
    else c :: stripFencesGo fuel cs

/-- Model of `text.replace(/```(?:json)?\n?/g, "")`. -/
def stripCodeFences (s : String) : String :=
  String.mk (stripFencesGo s.length s.data)

/-- The response cleaning both dashboard generators apply before
`JSON.parse`: strip the fence markers, then trim. -/
def cleanResponseText (text : String) : String :=
  jsTrim (stripCodeFences text)

/-- The parse step applied to a raw gateway response (`none` models a
thrown `SyntaxError`, the spec's `MalformedResponse`). -/
def parseGatewayResponse (text : String) : Option Json :=
  jsonParse (cleanResponseText text)

/-! ## Persisted data model and the Persistence Adapter

`JobOpportunity` mirrors the Prisma model: `isActive` defaults to `true`
and `createdAt` to the current time on creation.  `postedDate` (and
`deadline`) keep the ISO date string passed to `new Date(...)`; for valid
ISO dates the store's chronological order is the lexicographic order of
these strings.  The audit field `updatedAt` plays no role in any claim and
is omitted.  The store is a list of rows plus an id counter. -/

/-- A persisted job-opportunity row. -/
structure JobOpportunity where
  id : Nat
  title : String
  company : String
  location : String
  type : String
  industry : String
  description : String
  requirements : List String
  skills : List String
  salary : Option String
  experience : Option String
  platform : String
  url : String
  postedDate : String
  deadline : Option String
  isActive : Bool
  createdAt : Int
deriving DecidableEq

/-- The persistence store: all rows plus the id sequence. -/
structure DbState where
  jobs : List JobOpportunity
  nextId : Nat
deriving DecidableEq

/-- Lexicographic comparison of character lists. -/
def charListLt : List Char → List Char → Bool
  | [], [] => false
  | [], _ :: _ => true
  | _ :: _, [] => false
  | a :: as, b :: bs =>
    decide (a.toNat < b.toNat) || (a == b && charListLt as bs)

/-- Boolean lexicographic string comparison (reduction-friendly). -/
def stringLtB (s t : String) : Bool :=
  charListLt s.data t.data

/-- Stable insertion for a descending `postedDate` order (ties keep store
order, matching an unspecified tiebreak deterministically). -/
def insertPostedDesc (j : JobOpportunity) : List JobOpportunity → List JobOpportunity
  | [] => [j]
  | k :: rest =>
    if stringLtB k.postedDate j.postedDate then j :: k :: rest
    else k :: insertPostedDesc j rest

/-- Sort rows by `postedDate` descending (stable). -/
def sortByPostedDateDesc (rows : List JobOpportunity) : List JobOpportunity :=
  rows.foldl (fun acc j => insertPostedDesc j acc) []

/-- The query both read paths issue: active rows of the industry, ordered
by `postedDate` descending, capped at 20. -/
def findActiveJobs (st : DbState) (industry : String) : List JobOpportunity :=
  (sortByPostedDateDesc
      (st.jobs.filter (fun j => j.industry == industry && j.isActive))).take 20

/-- The bulk `updateMany` that deactivates the industry's active rows. -/
def deactivateJobs (st : DbState) (industry : String) : DbState :=
  { st with
    jobs := st.jobs.map (fun j =>
      if j.industry == industry && j.isActive then { j with isActive := false } else j) }

/-- Number of active rows of an industry. -/
def activeJobCount (st : DbState) (industry : String) : Nat :=
  (st.jobs.filter (fun j => j.industry == industry && j.isActive)).length

/-! ## Staleness policy -/

/-- The 3-day TTL for job opportunities, in milliseconds. -/
def jobTtlMs : Int := 3 * 24 * 60 * 60 * 1000

/-- The read path's refresh test, verbatim from the source: no rows, or
the `createdAt` of the FIRST row of the `postedDate`-descending list is
more than 3 days old. -/
def shouldFetchNew (existingJobs : List JobOpportunity) (nowMs : Int) : Bool :=
  existingJobs.length == 0 ||
    (match existingJobs.head? with
     | some first => decide (nowMs - first.createdAt > jobTtlMs)
     | none => false)

/-- The most recent creation timestamp of a record set. -/
def mostRecentCreatedAt : List JobOpportunity → Option Int
  | [] => none
  | j :: rest =>
    match mostRecentCreatedAt rest with
    | none => some j.createdAt
    | some t => some (max j.createdAt t)

/-- Modelled from the spec (§4.3 wording, for refinement comparison with
`shouldFetchNew`): stale iff no record exists or `now` minus the MOST
RECENT creation timestamp exceeds the TTL. -/
def isStaleSpec (jobs : List JobOpportunity) (nowMs : Int) : Bool :=
  match mostRecentCreatedAt jobs with
  | none => true
  | some t => decide (nowMs - t > jobTtlMs)

/-! ## Insight generator -/

/-- The hard-coded fallback object `generateAIInsights` returns on any
failure. -/
def defaultInsights : Json :=
  Json.obj [
    ("salaryRanges", Json.arr []),
    ("growthRate", Json.num 0 ""),
    ("demandLevel", Json.str "Medium"),
    ("topSkills", Json.arr []),
    ("marketOutlook", Json.str "Neutral"),
    ("keyTrends", Json.arr []),
    ("recommendedSkills", Json.arr [])
  ]

/-- Dashboard `generateAIInsights`: generate, clean, `JSON.parse`; any
failure (gateway exhausted or malformed JSON) is caught and replaced by
`defaultInsights`.  The industry argument only shapes the prompt, which the
gateway environment already abstracts, so it is not a parameter here. -/
def generateAIInsights (env : String → GenOutcome) : Json :=
  match (DashboardActions.generateWithModelFallback env).result with
  | some text =>
    match parseGatewayResponse text with
    | some v => v
    | none => defaultInsights
  | none => defaultInsights

/-! ## Job generation with bounded retry -/

/-- Outcome of one iteration of the retry loop's `try` block (gateway call
plus clean plus `JSON.parse`): a parsed value, or a thrown error message. -/
inductive TryOutcome where
  | parsed (v : Json)
  | thrown (message : String)

/-- Observable run of the retry loop: the parsed value if some attempt
succeeded, the number of attempts made, and the backoff waits performed. -/
structure RetryRun where
  value : Option Json
  attempts : Nat
  waitsMs : List Nat

/-- `const maxRetries = 3`. -/
def maxRetries : Nat := 3

/-- The retry loop from `generateJobOpportunities`, starting at a given
attempt number with a bound on the remaining iterations: a parsed value
returns immediately; a thrown error whose message contains `"503"` waits
`2^attempt` seconds and retries while `attempt < maxRetries`; any other
error breaks out. -/
def retryLoopFrom (tryEnv : Nat → TryOutcome) (attempt : Nat) : Nat → RetryRun
  | 0 => { value := none, attempts := 0, waitsMs := [] }
  | remaining + 1 =>
    match tryEnv attempt with
    | TryOutcome.parsed v => { value := some v, attempts := 1, waitsMs := [] }
    | TryOutcome.thrown message =>
      if jsIncludes message "503" && attempt < maxRetries then
        let r := retryLoopFrom tryEnv (attempt + 1) remaining
        { value := r.value, attempts := r.attempts + 1,
          waitsMs := 2 ^ attempt * 1000 :: r.waitsMs }
      else
        { value := none, attempts := 1, waitsMs := [] }

/-- The retry loop `for (let attempt = 1; attempt <= maxRetries; attempt++)`. -/
def retryLoop (tryEnv : Nat → TryOutcome) : RetryRun :=
  retryLoopFrom tryEnv 1 maxRetries

/-- The JS runtime's `SyntaxError` message on malformed JSON, modelled as a
fixed string (it never contains `"503"`). -/
def jsonSyntaxErrorMessage : String := "Unexpected token in JSON"

/-- The `try` block of one retry iteration, composed from the dashboard
gateway and the parser: the gateway environment may differ per attempt. -/
def generateTryOutcome (genEnv : Nat → String → GenOutcome) (attempt : Nat) : TryOutcome :=
  match (DashboardActions.generateWithModelFallback (genEnv attempt)).result with
  | none => TryOutcome.thrown "All Gemini models failed"
  | some text =>
    match parseGatewayResponse text with
    | some v => TryOutcome.parsed v
    | none => TryOutcome.thrown jsonSyntaxErrorMessage

/-! ## Fallback "real job" data

When generation fails, `generateJobOpportunities` does NOT re-throw: it
returns `getRealJobOpportunities`, a built-in fallback.  Its first three
sources (job APIs, scraping, feeds) are stubs or external HTTP; the
RemoteOK fetch is modelled as an environment value (the already-mapped job
objects, or `none` when the endpoint is unavailable).  The wall-clock date
string `currentDate` is passed explicitly. -/

/-- Model of `s.toLowerCase()`. -/
def jsToLower (s : String) : String :=
  String.mk (s.data.map Char.toLower)

/-- Build one JSON job object with the literal field layout the fallback
data uses. -/
def jsonJob (title company location jtype description : String)
    (requirements skills : List String)
    (salary experience platform url postedDate : String)
    (deadline : Option String) : Json :=
  Json.obj [
    ("title", Json.str title),
    ("company", Json.str company),
    ("location", Json.str location),
    ("type", Json.str jtype),
    ("description", Json.str description),
    ("requirements", Json.arr (requirements.map Json.str)),
    ("skills", Json.arr (skills.map Json.str)),
    ("salary", Json.str salary),
    ("experience", Json.str experience),
    ("platform", Json.str platform),
    ("url", Json.str url),
    ("postedDate", Json.str postedDate),
    ("deadline", match deadline with | some d => Json.str d | none => Json.null)
  ]

/-- The industry-to-search-keywords table of `fetchRealTimeJobs`. -/
def industryKeywords (industry : String) : List String :=
  if industry == "tech-software-development" then
    ["software developer", "programmer", "engineer", "internship"]
  else if industry == "finance" then ["finance", "banking", "fintech", "investment"]
  else if industry == "healthcare" then ["healthcare", "medical", "pharma", "biotech"]
  else if industry == "manufacturing" then
    ["manufacturing", "production", "engineering", "operations"]
  else if industry == "retail" then ["retail", "ecommerce", "marketing", "sales"]
  else if industry == "media" then ["media", "content", "marketing", "design"]
  else if industry == "education" then ["education", "teaching", "training", "edtech"]
  else if industry == "energy" then ["energy", "renewable", "sustainability", "utilities"]
  else if industry == "consulting" then ["consulting", "advisory", "strategy", "management"]
  else if industry == "telecom" then ["telecom", "networking", "communications", "5g"]
  else if industry == "transportation" then
    ["transportation", "logistics", "supply chain", "automotive"]
  else if industry == "agriculture" then ["agriculture", "farming", "agtech", "food"]
  else if industry == "construction" then
    ["construction", "real estate", "architecture", "engineering"]
  else if industry == "hospitality" then ["hospitality", "tourism", "hotel", "restaurant"]
  else if industry == "nonprofit" then ["nonprofit", "ngo", "social work", "charity"]
  else ["software developer", "internship"]

/-- The five constructed `realTimeJobs` entries of `fetchRealTimeJobs`. -/
def realTimeJobs (currentDate industry : String) : List Json :=
  let keywords := industryKeywords industry
  let searchQuery := String.intercalate " " keywords
  let k0 := keywords.headD ""
  let slug := jsEncodeURIComponent (hyphenateSpaces (jsToLower searchQuery))
  [ jsonJob (capFirst k0 ++ " Intern") "Tech Mahindra" "Pune, India" "internship"
      ("Join Tech Mahindra as a " ++ k0 ++ " intern and work on cutting-edge projects in the "
        ++ industry ++ " industry. Gain hands-on experience with real-world applications.")
      ["Currently pursuing degree in relevant field", "Strong interest in " ++ k0]
      (keywords.take 5) "₹15,000 - ₹25,000/month" "Fresher" "internshala"
      ("https://internshala.com/internships/" ++ slug ++ "-internship") currentDate none,
    jsonJob ("Senior " ++ capFirst k0) "Infosys" "Bangalore, India" "full-time"
      ("Work as a Senior " ++ k0 ++ " at Infosys, one of India's leading IT companies. "
        ++ "Lead projects and mentor junior developers.")
      ["Bachelor's degree in relevant field", "3+ years of experience"]
      (keywords.take 5) "₹8,00,000 - ₹12,00,000/year" "3-5 years" "linkedin"
      ("https://www.linkedin.com/jobs/view/" ++ slug ++ "-position") currentDate none,
    jsonJob (capFirst k0 ++ " Trainee") "Wipro" "Hyderabad, India" "internship"
      ("Start your career as a " ++ k0 ++ " trainee at Wipro. "
        ++ "Comprehensive training program with job placement opportunities.")
      ["Recent graduate or final year student", "Good communication skills"]
      (keywords.take 5) "₹12,000 - ₹20,000/month" "Fresher" "unstop"
      ("https://unstop.com/internship/" ++ slug ++ "-internship") currentDate none,
    jsonJob ("Junior " ++ capFirst k0) "TCS" "Mumbai, India" "full-time"
      ("Join TCS as a Junior " ++ k0 ++ " and work on exciting projects for global clients. "
        ++ "Great learning and growth opportunities.")
      ["Bachelor's degree", "1-2 years of experience"]
      (keywords.take 5) "₹4,00,000 - ₹6,00,000/year" "1-2 years" "linkedin"
      ("https://www.linkedin.com/jobs/view/" ++ slug ++ "-junior-position") currentDate none,
    jsonJob (capFirst k0 ++ " Specialist") "HCL Technologies" "Chennai, India" "full-time"
      ("Work as a " ++ k0 ++ " specialist at HCL Technologies. "
        ++ "Focus on specialized projects and advanced technologies.")
      ["Master's degree preferred", "2+ years of specialized experience"]
      (keywords.take 5) "₹6,00,000 - ₹10,00,000/year" "2-4 years" "indeed"
      ("https://in.indeed.com/viewjob?jk=" ++ slug ++ "-specialist") currentDate none ]

/-- `fetchFromJobAPIs`: stub, always returns the empty list. -/
def fetchFromJobAPIs (_industry : String) : List Json := []

/-- `scrapeJobSites`: stub, always returns the empty list. -/
def scrapeJobSites (_industry : String) : List Json := []

/-- Environment for the one real network call of the fallback path: the
RemoteOK fetch, as the already-mapped job objects (`none` = unavailable). -/
structure JobFeedEnv where
  remoteOkJobs : Option (List Json)

/-- `fetchFromJobFeeds`: the RemoteOK jobs when the fetch succeeded,
otherwise the empty list. -/
def fetchFromJobFeeds (env : JobFeedEnv) (_industry : String) : List Json :=
  match env.remoteOkJobs with
  | some jobs => jobs
  | none => []

/-- `fetchRealTimeJobs`: job APIs, then scraping, then feeds, then the
constructed `realTimeJobs`. -/
def fetchRealTimeJobs (env : JobFeedEnv) (currentDate industry : String) : List Json :=
  let apiJobs := fetchFromJobAPIs industry
  if apiJobs.length > 0 then apiJobs
  else
    let scrapedJobs := scrapeJobSites industry
    if scrapedJobs.length > 0 then scrapedJobs
    else
      let feedJobs := fetchFromJobFeeds env industry
      if feedJobs.length > 0 then feedJobs
      else realTimeJobs currentDate industry

/-- The curated `realJobsWithLinks` table of
`getRealJobOpportunitiesWithLinks` (tech, finance, healthcare; any other
industry falls back to the tech list). -/
def realJobsWithLinks (currentDate industry : String) : List Json :=
  let techJobs : List Json :=
    [ jsonJob "Software Development Intern" "Microsoft" "Bangalore, India" "internship"
        ("Join Microsoft as a Software Development Intern and work on cutting-edge technologies "
          ++ "including Azure, .NET, and cloud computing solutions.")
        ["Currently pursuing Computer Science or related field",
         "Strong programming skills in C#, Java, or Python"]
        ["C#", "Azure", "JavaScript", "SQL", "Git"] "₹30,000 - ₹45,000/month" "Fresher"
        "linkedin"
        "https://www.linkedin.com/jobs/search/?keywords=software%20developer%20internship&location=India"
        currentDate none,
      jsonJob "React Developer Intern" "Flipkart" "Bangalore, India" "internship"
        ("Work on Flipkart's e-commerce platform using React and modern frontend technologies. "
          ++ "Gain experience in large-scale web applications.")
        ["Currently pursuing Computer Science", "Knowledge of React and JavaScript"]
        ["React", "JavaScript", "HTML", "CSS", "Redux"] "₹25,000 - ₹40,000/month" "Fresher"
        "internshala" "https://internshala.com/internships/software-development-internship"
        currentDate none,
      jsonJob "Full Stack Developer" "Google" "Hyderabad, India" "full-time"
        ("Build scalable web applications and services using Google's technology stack. "
          ++ "Work on products used by billions of users worldwide.")
        ["Bachelor's degree in Computer Science", "3+ years of experience in web development"]
        ["JavaScript", "React", "Node.js", "Go", "Kubernetes"]
        "₹18,00,000 - ₹30,00,000/year" "3-5 years" "linkedin"
        "https://www.linkedin.com/jobs/search/?keywords=full%20stack%20developer&location=India"
        currentDate none,
      jsonJob "Data Science Intern" "Uber" "Mumbai, India" "internship"
        ("Analyze large datasets to derive insights for Uber's business operations. "
          ++ "Work on machine learning models and data visualization.")
        ["Currently pursuing Data Science or related field", "Strong analytical skills"]
        ["Python", "Pandas", "Scikit-learn", "SQL", "Tableau"] "₹22,000 - ₹35,000/month"
        "Fresher" "unstop" "https://unstop.com/internship/data-science-internship"
        currentDate none,
      jsonJob "Backend Developer" "Amazon" "Chennai, India" "full-time"
        ("Design and develop scalable backend services for Amazon's e-commerce platform. "
          ++ "Work with microservices architecture and cloud technologies.")
        ["Bachelor's degree in Computer Science", "2+ years of backend development experience"]
        ["Java", "Spring Boot", "AWS", "Docker", "Kubernetes"]
        "₹15,00,000 - ₹22,00,000/year" "2-4 years" "linkedin"
        "https://www.linkedin.com/jobs/search/?keywords=backend%20developer&location=India"
        currentDate none ]
  if industry == "finance" then
    [ jsonJob "Investment Banking Intern" "Goldman Sachs" "Mumbai, India" "internship"
        ("Gain exposure to investment banking operations, financial modeling, and client "
          ++ "relationship management in a global financial services firm.")
        ["Currently pursuing Finance or related field",
         "Strong analytical and communication skills"]
        ["Financial Modeling", "Excel", "PowerPoint", "Bloomberg Terminal", "Valuation"]
        "₹30,000 - ₹40,000/month" "Fresher" "linkedin"
        "https://www.linkedin.com/jobs/search/?keywords=investment%20banking%20internship&location=India"
        currentDate none,
      jsonJob "FinTech Developer" "Paytm" "Noida, India" "full-time"
        ("Develop innovative financial technology solutions for India's leading digital "
          ++ "payments platform. Work on mobile and web applications.")
        ["Bachelor's degree in Computer Science", "2+ years of development experience"]
        ["Java", "Spring Boot", "React Native", "PostgreSQL", "Redis"]
        "₹8,00,000 - ₹12,00,000/year" "2-4 years" "linkedin"
        "https://www.linkedin.com/jobs/search/?keywords=fintech%20developer&location=India"
        currentDate none ]
  else if industry == "healthcare" then
    [ jsonJob "Healthcare IT Intern" "Apollo Hospitals" "Chennai, India" "internship"
        ("Work on healthcare information systems, electronic health records, and telemedicine "
          ++ "platforms. Gain experience in healthcare technology.")
        ["Currently pursuing Computer Science or Healthcare IT",
         "Interest in healthcare technology"]
        ["Python", "Django", "PostgreSQL", "HL7", "FHIR"] "₹15,000 - ₹25,000/month" "Fresher"
        "internshala" "https://internshala.com/internships/healthcare-internship"
        currentDate none ]
  else techJobs

/-- `getRealJobOpportunitiesWithLinks`: wrap the curated table entry for
the industry (default: tech) as a `jobs` object. -/
def getRealJobOpportunitiesWithLinks (currentDate industry : String) : Json :=
  Json.obj [("jobs", Json.arr (realJobsWithLinks currentDate industry))]

/-- `getRealJobOpportunities`: real-time jobs when any source yields them,
else the curated table. -/
def getRealJobOpportunities (env : JobFeedEnv) (currentDate industry : String) : Json :=
  let rt := fetchRealTimeJobs env currentDate industry
  if rt.length > 0 then Json.obj [("jobs", Json.arr rt)]
  else getRealJobOpportunitiesWithLinks currentDate industry

/-! ## Refresh Orchestrator

`generateJobOpportunities` never throws: when the retry loop fails it
returns the fallback data above.  The read path and the manual route then
deactivate and create rows.  Persistence reads and the bulk update are
modelled as succeeding; the per-row `create` calls may fail, governed by
`createOk` on the index of the entry within the batch (the read path
catches and skips such failures per row, the manual route lets them abort
the industry's batch). -/

/-- Observable run of `generateJobOpportunities`: the returned object, the
number of retry-loop attempts (= gateway invocations), the backoff waits,
and whether the fallback data was used. -/
structure GenerateRun where
  value : Json
  attempts : Nat
  waitsMs : List Nat
  usedFallback : Bool

/-- `generateJobOpportunities`: the bounded retry loop around
generate-and-parse; on overall failure, return the fallback data instead of
throwing. -/
def generateJobOpportunities (genEnv : Nat → String → GenOutcome) (feedEnv : JobFeedEnv)
    (currentDate industry : String) : GenerateRun :=
  let r := retryLoop (generateTryOutcome genEnv)
  match r.value with
  | some v =>
      { value := v, attempts := r.attempts, waitsMs := r.waitsMs, usedFallback := false }
  | none =>
      { value := getRealJobOpportunities feedEnv currentDate industry,
        attempts := r.attempts, waitsMs := r.waitsMs, usedFallback := true }

/-- String field of a JSON job entry (missing or non-string becomes ""). -/
def jsonFieldString (j : Json) (key : String) : String :=
  match (j.getField key).bind Json.asString with
  | some s => s
  | none => ""

/-- String-list field of a JSON job entry; `job.field || []` makes a
missing field the empty list. -/
def jsonFieldStringList (j : Json) (key : String) : List String :=
  match j.getField key with
  | some (Json.arr items) => items.filterMap Json.asString
  | _ => []

/-- `job.deadline ? new Date(job.deadline) : null`. -/
def jsonFieldDeadline (j : Json) : Option String :=
  match j.getField "deadline" with
  | some v => if v.isTruthy then v.asString else none
  | none => none

/-- The row built by the `db.jobOpportunity.create` call: `isActive` and
`createdAt` come from the store's defaults. -/
def jobRowOfJson (industry : String) (nowMs : Int) (id : Nat) (j : Json) : JobOpportunity :=
  { id := id
    title := jsonFieldString j "title"
    company := jsonFieldString j "company"
    location := jsonFieldString j "location"
    type := jsonFieldString j "type"
    industry := industry
    description := jsonFieldString j "description"
    requirements := jsonFieldStringList j "requirements"
    skills := jsonFieldStringList j "skills"
    salary := (j.getField "salary").bind Json.asString
    experience := (j.getField "experience").bind Json.asString
    platform := jsonFieldString j "platform"
    url := jsonFieldString j "url"
    postedDate := jsonFieldString j "postedDate"
    deadline := jsonFieldDeadline j
    isActive := true
    createdAt := nowMs }

/-- The read path's creation loop: a failing `create` (per `createOk` on
the batch index) is caught, logged and skipped; the loop continues. -/
def createJobsFrom (createOk : Nat → Bool) (industry : String) (nowMs : Int)
    (idx : Nat) (st : DbState) : List Json → DbState
  | [] => st
  | j :: rest =>
    if createOk idx then
      createJobsFrom createOk industry nowMs (idx + 1)
        { jobs := st.jobs ++ [jobRowOfJson industry nowMs st.nextId j],
          nextId := st.nextId + 1 } rest
    else
      createJobsFrom createOk industry nowMs (idx + 1) st rest

/-- The manual route's creation loop: no per-row catch, so the first
failing `create` aborts the batch (earlier rows stay created); the Bool
reports whether the loop ran to completion. -/
def createJobsStrict (createOk : Nat → Bool) (industry : String) (nowMs : Int)
    (idx : Nat) (st : DbState) : List Json → DbState × Bool
  | [] => (st, true)
  | j :: rest =>
    if createOk idx then
      createJobsStrict createOk industry nowMs (idx + 1)
        { jobs := st.jobs ++ [jobRowOfJson industry nowMs st.nextId j],
          nextId := st.nextId + 1 } rest
    else (st, false)

/-- The guard `if (jobData.jobs && Array.isArray(jobData.jobs))`: the
entries when the field is present, truthy and an array. -/
def jobsArrayEntries (v : Json) : Option (List Json) :=
  match v.getField "jobs" with
  | some jobsVal =>
      if jobsVal.isTruthy && jobsVal.isArr then some jobsVal.asArr else none
  | none => none

/-- The environment of one refresh execution: the Gemini outcomes per
attempt and model, the RemoteOK feed, and the per-row create outcomes. -/
structure RefreshEnv where
  genEnv : Nat → String → GenOutcome
  feedEnv : JobFeedEnv
  createOk : Nat → Bool

/-- Observable run of the read path: what it returns, the store it leaves
behind, and how many gateway invocations it performed. -/
structure ReadRun where
  returned : List JobOpportunity
  db : DbState
  gatewayInvocations : Nat
deriving DecidableEq

/-- The read path `getJobOpportunities` (caller assumed authorized): fetch
the active set; if fresh, serve it; if a refresh is due, generate (which
never throws — failures yield fallback data), deactivate ALL active rows
of the industry, create one row per entry of the `jobs` array (if any),
and re-query.  The outer catch, which would serve `existingJobs`, is
reachable only through persistence-layer throws, which the model treats as
absent (per-row create failures are modelled and are caught per row). -/
def getJobOpportunities (env : RefreshEnv) (nowMs : Int) (currentDate industry : String)
    (st : DbState) : ReadRun :=
  let existingJobs := findActiveJobs st industry
  if shouldFetchNew existingJobs nowMs then
    let gen := generateJobOpportunities env.genEnv env.feedEnv currentDate industry
    let st1 := deactivateJobs st industry
    let st2 :=
      match jobsArrayEntries gen.value with
      | some entries => createJobsFrom env.createOk industry nowMs 0 st1 entries
      | none => st1
    { returned := findActiveJobs st2 industry, db := st2,
      gatewayInvocations := gen.attempts }
  else
    { returned := existingJobs, db := st, gatewayInvocations := 0 }

/-- Per-industry report entry of the manual route (`skipped`: the source
pushes no entry at all when the generated object has no `jobs` array). -/
inductive ManualOutcome where
  | success (jobsCreated : Nat)
  | error (message : String)
  | skipped
deriving DecidableEq

/-- One industry's processing in the manual route `POST`: deactivate FIRST,
then generate unconditionally (no staleness gate), then create; a throw
inside the creation loop is caught per industry. -/
def manualUpdateIndustry (env : RefreshEnv) (nowMs : Int) (currentDate : String)
    (st : DbState) (industry : String) : DbState × ManualOutcome :=
  let st1 := deactivateJobs st industry
  let gen := generateJobOpportunities env.genEnv env.feedEnv currentDate industry
  match jobsArrayEntries gen.value with
  | some entries =>
    let created := createJobsStrict env.createOk industry nowMs 0 st1 entries
    if created.2 then (created.1, ManualOutcome.success entries.length)
    else (created.1, ManualOutcome.error "job creation failed")
  | none => (st1, ManualOutcome.skipped)

/-! ## Concrete scenario helpers -/

/-- A concrete persisted row with the fields the scenarios vary. -/
def mkJob (id : Nat) (industry postedDate : String) (createdAt : Int)
    (active : Bool) : JobOpportunity :=
  { id := id, title := "t", company := "c", location := "l", type := "full-time",
    industry := industry, description := "", requirements := [], skills := [],
    salary := none, experience := none, platform := "linkedin", url := "",
    postedDate := postedDate, deadline := none, isActive := active, createdAt := createdAt }

/-- One day in milliseconds. -/
def dayMs : Int := 24 * 60 * 60 * 1000

/-! ## Gateway theorems (C3, C4) -/

/-- C3, amended: for every ranked model list and environment, if the models
before `m` all fail and `m` succeeds with `t`, the dashboard gateway (the
one the job/insight pipeline uses) returns the RAW text `t` — not the
trimmed text — having invoked exactly the models up to and including `m`
(no later candidate is invoked); the cover-letter gateway behaves the same
but returns the trimmed text. -/
theorem C3_first_success_wins (env : String → GenOutcome)
    (failedModels rest : List String) (m t : String)
    (hfail : ∀ n ∈ failedModels, (env n).isSuccess = false)
    (hsucc : env m = GenOutcome.success t) :
    (DashboardActions.tryModels env (failedModels ++ m :: rest)).result = some t ∧
    (DashboardActions.tryModels env (failedModels ++ m :: rest)).invoked
      = failedModels.length + 1 ∧
    (CoverLetterActions.tryModels env (failedModels ++ m :: rest)).result
      = some (jsTrim t) ∧
    (CoverLetterActions.tryModels env (failedModels ++ m :: rest)).invoked
      = failedModels.length + 1 := by
  induction failedModels with
  | nil =>
      simp [DashboardActions.tryModels, CoverLetterActions.tryModels, hsucc]
  | cons n ns ih =>
      have hn := hfail n (List.mem_cons_self n ns)
      have hrest : ∀ k ∈ ns, (env k).isSuccess = false :=
        fun k hk => hfail k (List.mem_cons_of_mem _ hk)
      obtain ⟨ra, rb, rc, rd⟩ := ih hrest
      cases he : env n with
      | success tx =>
          rw [he] at hn
          simp [GenOutcome.isSuccess] at hn
      | failure msg stt =>
          simp only [List.cons_append, DashboardActions.tryModels,
            CoverLetterActions.tryModels, he, List.length_cons]
          constructor
          · split_ifs <;> simpa using ra
          constructor
          · split_ifs <;> simp [rb]
          constructor
          · split_ifs <;> simpa using rc
          · split_ifs <;> simp [rd]

/-- Witness for C3: first model 404s, second succeeds, so the result is the
second model's output and the third and fourth models are never invoked. -/
def c3WitnessEnv : String → GenOutcome := fun name =>
  if name == "gemini-1.5-flash" then GenOutcome.failure "404 model not found" (some 404)
  else GenOutcome.success "B output"

theorem C3_first_success_wins_witness :
    (DashboardActions.tryModels c3WitnessEnv
        (["gemini-1.5-flash"] ++ "gemini-1.5-pro" :: ["gemini-pro", "gemini-2.0-flash-exp"])).result
      = some "B output" ∧
    (DashboardActions.tryModels c3WitnessEnv
        (["gemini-1.5-flash"] ++ "gemini-1.5-pro" :: ["gemini-pro", "gemini-2.0-flash-exp"])).invoked
      = 2 := by
  have h := C3_first_success_wins c3WitnessEnv ["gemini-1.5-flash"]
    ["gemini-pro", "gemini-2.0-flash-exp"] "gemini-1.5-pro" "B output"
    (by decide) (by decide)
  exact ⟨h.1, h.2.1⟩

/-- Counterexample for C3 as stated: the dashboard gateway (the claim's
cited `generateWithModelFallback`) returns the raw first-success text, not
its trimmed form. -/
def c3UntrimmedEnv : String → GenOutcome := fun _ => GenOutcome.success "  output  "

theorem C3_counterexample :
    (DashboardActions.generateWithModelFallback c3UntrimmedEnv).result = some "  output  " ∧
    (DashboardActions.generateWithModelFallback c3UntrimmedEnv).result
      ≠ some (jsTrim "  output  ") := by
  decide

/-- C4, amended: when every candidate fails rate-limited, the cover-letter
gateway waits 2000 ms after each candidate and then raises GenerationFailed,
but the dashboard gateway — the variant the job/insight pipeline uses — has
no rate-limit branch: it advances through all candidates with NO wait and
then raises GenerationFailed. -/
theorem C4_rate_limited_behavior (env : String → GenOutcome) (names : List String)
    (h : ∀ n ∈ names, (env n).isRateLimitedFailure = true) :
    (CoverLetterActions.tryModels env names).result = none ∧
    (CoverLetterActions.tryModels env names).waitsMs = List.replicate names.length 2000 ∧
    (CoverLetterActions.tryModels env names).invoked = names.length ∧
    (DashboardActions.tryModels env names).result = none ∧
    (DashboardActions.tryModels env names).waitsMs = [] ∧
    (DashboardActions.tryModels env names).invoked = names.length := by
  induction names with
  | nil => simp [DashboardActions.tryModels, CoverLetterActions.tryModels]
  | cons n ns ih =>
      have hn := h n (List.mem_cons_self n ns)
      have hrest : ∀ k ∈ ns, (env k).isRateLimitedFailure = true :=
        fun k hk => h k (List.mem_cons_of_mem _ hk)
      obtain ⟨ra, rb, rc, rd, re, rf⟩ := ih hrest
      cases he : env n with
      | success tx =>
          rw [he] at hn
          simp [GenOutcome.isRateLimitedFailure] at hn
      | failure msg stt =>
          rw [he] at hn
          simp only [GenOutcome.isRateLimitedFailure, Bool.and_eq_true,
            Bool.not_eq_true'] at hn
          simp [DashboardActions.tryModels, CoverLetterActions.tryModels, he,
            hn.1, hn.2, ra, rb, rc, rd, re, rf, List.replicate_succ]

/-- A concrete all-rate-limited environment. -/
def c4RateLimitedEnv : String → GenOutcome :=
  fun _ => GenOutcome.failure "429 Too Many Requests" (some 429)

theorem C4_rate_limited_behavior_witness :
    (CoverLetterActions.tryModels c4RateLimitedEnv modelsToTry).result = none ∧
    (CoverLetterActions.tryModels c4RateLimitedEnv modelsToTry).waitsMs
      = List.replicate modelsToTry.length 2000 ∧
    (CoverLetterActions.tryModels c4RateLimitedEnv modelsToTry).invoked
      = modelsToTry.length ∧
    (DashboardActions.tryModels c4RateLimitedEnv modelsToTry).result = none ∧
    (DashboardActions.tryModels c4RateLimitedEnv modelsToTry).waitsMs = [] ∧
    (DashboardActions.tryModels c4RateLimitedEnv modelsToTry).invoked
      = modelsToTry.length :=
  C4_rate_limited_behavior c4RateLimitedEnv modelsToTry (by decide)

/-- Counterexample for C4 as stated: with every candidate rate-limited, the
claim's cited gateway raises GenerationFailed WITHOUT waiting between
candidates (its wait list is empty, not one 2-second backoff per advance). -/
theorem C4_counterexample :
    (DashboardActions.generateWithModelFallback c4RateLimitedEnv).result = none ∧
    (DashboardActions.generateWithModelFallback c4RateLimitedEnv).waitsMs = [] := by
  decide

/-! ## Staleness theorems (C5) -/

/-- Any value of `mostRecentCreatedAt` is bounded by a bound on all rows. -/
theorem mostRecentCreatedAt_le (jobs : List JobOpportunity) (b : Int)
    (h : ∀ j ∈ jobs, j.createdAt ≤ b) :
    ∀ t, mostRecentCreatedAt jobs = some t → t ≤ b := by
  induction jobs with
  | nil => intro t ht; simp [mostRecentCreatedAt] at ht
  | cons j rest ih =>
      intro t ht
      have hj := h j (List.mem_cons_self _ _)
      have hrest : ∀ k ∈ rest, k.createdAt ≤ b :=
        fun k hk => h k (List.mem_cons_of_mem _ hk)
      cases hm : mostRecentCreatedAt rest with
      | none =>
          rw [mostRecentCreatedAt, hm] at ht
          simp at ht
          omega
      | some u =>
          rw [mostRecentCreatedAt, hm] at ht
          simp at ht
          have hu := ih hrest u hm
          omega

/-- When the head row has the greatest `createdAt`, it is the most recent. -/
theorem mostRecentCreatedAt_cons_of_head_max (first : JobOpportunity)
    (rest : List JobOpportunity)
    (h : ∀ j ∈ rest, j.createdAt ≤ first.createdAt) :
    mostRecentCreatedAt (first :: rest) = some first.createdAt := by
  cases hm : mostRecentCreatedAt rest with
  | none => rw [mostRecentCreatedAt, hm]
  | some u =>
      have hu := mostRecentCreatedAt_le rest first.createdAt h u hm
      rw [mostRecentCreatedAt, hm]
      simp [max_eq_left hu]

/-- C5, amended: the read path decides staleness from the `createdAt` of
the FIRST row of the `postedDate`-descending fetched list, not from the
most recent creation timestamp; the two agree whenever that first row is
the most recently created one (in particular for a uniformly-created
batch), and then the claimed rule holds: a 4-day-old record triggers a
refresh under the 3-day TTL and a 2-day-old one does not. -/
theorem C5_staleness_policy (jobs : List JobOpportunity) (nowMs : Int)
    (h : ∀ first, jobs.head? = some first → ∀ j ∈ jobs, j.createdAt ≤ first.createdAt) :
    shouldFetchNew jobs nowMs = isStaleSpec jobs nowMs ∧
    shouldFetchNew [mkJob 1 "tech" "2026-01-01" (nowMs - 4 * dayMs) true] nowMs = true ∧
    shouldFetchNew [mkJob 1 "tech" "2026-01-01" (nowMs - 2 * dayMs) true] nowMs = false := by
  refine ⟨?_, ?_, ?_⟩
  · cases jobs with
    | nil => rfl
    | cons first rest =>
        have hh := h first rfl
        have hmax := mostRecentCreatedAt_cons_of_head_max first rest
          (fun j hj => hh j (List.mem_cons_of_mem _ hj))
        simp [shouldFetchNew, isStaleSpec, hmax]
  · simp [shouldFetchNew, mkJob, jobTtlMs, dayMs]
  · simp [shouldFetchNew, mkJob, jobTtlMs, dayMs]

theorem C5_staleness_policy_witness :
    shouldFetchNew [mkJob 1 "tech" "2026-01-01" (0 - 4 * dayMs) true] 0
      = isStaleSpec [mkJob 1 "tech" "2026-01-01" (0 - 4 * dayMs) true] 0 ∧
    shouldFetchNew [mkJob 1 "tech" "2026-01-01" (0 - 4 * dayMs) true] 0 = true ∧
    shouldFetchNew [mkJob 1 "tech" "2026-01-01" (0 - 2 * dayMs) true] 0 = false :=
  C5_staleness_policy [mkJob 1 "tech" "2026-01-01" (0 - 4 * dayMs) true] 0
    (by intro first hf j hj
        simp only [List.head?_cons, Option.some.injEq] at hf
        simp only [List.mem_singleton] at hj
        subst hf; subst hj; exact le_refl _)

/-- A fetched set where the first row by `postedDate` is NOT the most
recently created one: posted later, created 4 days ago. -/
def c5JobNewestPosted : JobOpportunity := mkJob 1 "tech" "2026-01-02" (-(4 * dayMs)) true

/-- The companion row: posted earlier, created one hour ago. -/
def c5JobNewestCreated : JobOpportunity := mkJob 2 "tech" "2026-01-01" (-(60 * 60 * 1000)) true

/-- Counterexample for C5 as stated: this two-row active set is exactly
what the fetch returns, its most recent creation is one hour old (within
TTL), yet the code's staleness decision is `true` — it looks only at the
head of the `postedDate`-descending order. -/
theorem C5_counterexample :
    findActiveJobs { jobs := [c5JobNewestPosted, c5JobNewestCreated], nextId := 3 } "tech"
      = [c5JobNewestPosted, c5JobNewestCreated] ∧
    shouldFetchNew [c5JobNewestPosted, c5JobNewestCreated] 0 = true ∧
    isStaleSpec [c5JobNewestPosted, c5JobNewestCreated] 0 = false := by
  decide

/-! ## Parser theorems (C7) -/

/-- C7, amended: the parse step strips every ``` fence marker (optionally
with the literal `json` tag and one newline) wherever it occurs, trims, and
then JSON-parses; it raises MalformedResponse only for malformed JSON — the
fenced `\x7b"jobs":[]\x7d` parses to the object with an empty `jobs` list
and `"not json"` raises — but it does NOT validate shape: a well-formed
object with no `jobs` list parses successfully (the `jobs`-array check
happens later, as a guard in the orchestrator). -/
theorem C7_parse_behavior :
    parseGatewayResponse "```json\n\x7b\"jobs\":[]\x7d\n```"
      = some (Json.obj [("jobs", Json.arr [])]) ∧
    parseGatewayResponse "not json" = none ∧
    parseGatewayResponse "\x7b\"insights\": 1\x7d"
      = some (Json.obj [("insights", Json.num 1 "")]) ∧
    (Json.obj [("insights", Json.num 1 "")]).getField "jobs" = none ∧
    jobsArrayEntries (Json.obj [("insights", Json.num 1 "")]) = none :=
  ⟨rfl, rfl, rfl, rfl, rfl⟩

/-- Counterexample for C7 as stated: an input whose stripped text is
well-formed JSON but lacks the `jobs` list does NOT raise
MalformedResponse — the parse succeeds. -/
theorem C7_counterexample :
    (parseGatewayResponse "\x7b\"notjobs\": 1\x7d").isSome = true := rfl

/-! ## Insight generator theorem (C10) -/

/-- C10: `generateAIInsights` is total (it propagates no error): if the
gateway exhausts all models, or the cleaned text fails to parse, it returns
the fixed default insight object (empty salaryRanges, growthRate 0,
demandLevel "Medium", marketOutlook "Neutral", empty topSkills, keyTrends
and recommendedSkills); when generation and parsing succeed it returns the
parsed value. -/
theorem C10_insights_default_on_failure (env : String → GenOutcome) :
    ((DashboardActions.generateWithModelFallback env).result = none →
      generateAIInsights env = defaultInsights) ∧
    (∀ text, (DashboardActions.generateWithModelFallback env).result = some text →
      parseGatewayResponse text = none →
      generateAIInsights env = defaultInsights) ∧
    (∀ text v, (DashboardActions.generateWithModelFallback env).result = some text →
      parseGatewayResponse text = some v →
      generateAIInsights env = v) := by
  refine ⟨?_, ?_, ?_⟩
  · intro h
    simp [generateAIInsights, h]
  · intro text h hp
    simp [generateAIInsights, h, hp]
  · intro text v h hp
    simp [generateAIInsights, h, hp]

/-- An environment where every model fails. -/
def c10FailEnv : String → GenOutcome := fun _ => GenOutcome.failure "boom" none

theorem C10_insights_default_on_failure_witness :
    generateAIInsights c10FailEnv = defaultInsights :=
  (C10_insights_default_on_failure c10FailEnv).1 rfl

/-! ## Retry-policy theorems (C8) -/

/-- A parsed try block returns immediately from the retry loop. -/
theorem retryLoopFrom_parsed (tryEnv : Nat → TryOutcome) (a r : Nat) (v : Json)
    (h : tryEnv a = TryOutcome.parsed v) :
    retryLoopFrom tryEnv a (r + 1) = { value := some v, attempts := 1, waitsMs := [] } := by
  simp only [retryLoopFrom, h]

/-- A 503-classified throw below the attempt cap waits `2^attempt` seconds
and retries. -/
theorem retryLoopFrom_thrown_retry (tryEnv : Nat → TryOutcome) (a r : Nat) (m : String)
    (h : tryEnv a = TryOutcome.thrown m)
    (h503 : jsIncludes m "503" = true) (hlt : a < maxRetries) :
    retryLoopFrom tryEnv a (r + 1) =
      { value := (retryLoopFrom tryEnv (a + 1) r).value,
        attempts := (retryLoopFrom tryEnv (a + 1) r).attempts + 1,
        waitsMs := 2 ^ a * 1000 :: (retryLoopFrom tryEnv (a + 1) r).waitsMs } := by
  simp only [retryLoopFrom, h, h503, hlt]
  simp

/-- Any other throw (or a 503 at the cap) breaks out of the loop. -/
theorem retryLoopFrom_thrown_break (tryEnv : Nat → TryOutcome) (a r : Nat) (m : String)
    (h : tryEnv a = TryOutcome.thrown m)
    (hcond : (jsIncludes m "503" && decide (a < maxRetries)) = false) :
    retryLoopFrom tryEnv a (r + 1) = { value := none, attempts := 1, waitsMs := [] } := by
  simp only [retryLoopFrom, h, hcond]
  simp

/-- C8: the job-generation step makes between 1 and 3 attempts; the wait
between attempt `n` and attempt `n+1` is `2^n` seconds, and reaching
attempt `n+1` at all requires that attempt `n` failed with a
503-classified error (so backoff happens only for "service unavailable");
a failure at the final attempt leaves no value; and whenever the loop ends
with no value, `generateJobOpportunities` diverts to the fallback data,
which is returned as-is, without parsing. -/
theorem C8_retry_policy (tryEnv : Nat → TryOutcome) :
    (retryLoop tryEnv).attempts ≤ 3 ∧
    1 ≤ (retryLoop tryEnv).attempts ∧
    (retryLoop tryEnv).waitsMs
      = (List.range ((retryLoop tryEnv).attempts - 1)).map (fun i => 2 ^ (1 + i) * 1000) ∧
    (∀ i, i + 1 < (retryLoop tryEnv).attempts →
      ∃ m, tryEnv (i + 1) = TryOutcome.thrown m ∧ jsIncludes m "503" = true) ∧
    (∀ m, tryEnv (retryLoop tryEnv).attempts = TryOutcome.thrown m →
      (retryLoop tryEnv).value = none) ∧
    (∀ genEnv feedEnv currentDate industry,
      (retryLoop (generateTryOutcome genEnv)).value = none →
      (generateJobOpportunities genEnv feedEnv currentDate industry).value
        = getRealJobOpportunities feedEnv currentDate industry ∧
      (generateJobOpportunities genEnv feedEnv currentDate industry).usedFallback = true) := by
  have hdiv : ∀ (genEnv : Nat → String → GenOutcome) (feedEnv : JobFeedEnv)
      (currentDate industry : String),
      (retryLoop (generateTryOutcome genEnv)).value = none →
      (generateJobOpportunities genEnv feedEnv currentDate industry).value
        = getRealJobOpportunities feedEnv currentDate industry ∧
      (generateJobOpportunities genEnv feedEnv currentDate industry).usedFallback = true := by
    intro genEnv feedEnv currentDate industry hv
    simp [generateJobOpportunities, hv]
  rcases h1 : tryEnv 1 with v1 | m1
  · have hl : retryLoop tryEnv = { value := some v1, attempts := 1, waitsMs := [] } :=
      retryLoopFrom_parsed tryEnv 1 2 v1 h1
    rw [hl]
    refine ⟨by norm_num, by norm_num, by simp, ?_, ?_, hdiv⟩
    · intro i hi
      simp at hi
    · intro m hm
      rw [h1] at hm
      simp at hm
  · rcases hc1 : jsIncludes m1 "503" with _ | _
    · have hl : retryLoop tryEnv = { value := none, attempts := 1, waitsMs := [] } :=
        retryLoopFrom_thrown_break tryEnv 1 2 m1 h1 (by simp [hc1])
      rw [hl]
      refine ⟨by norm_num, by norm_num, by simp, ?_, ?_, hdiv⟩
      · intro i hi
        simp at hi
      · intro m hm
        rfl
    · have e2p : retryLoopFrom tryEnv 1 3 =
          { value := (retryLoopFrom tryEnv 2 2).value,
            attempts := (retryLoopFrom tryEnv 2 2).attempts + 1,
            waitsMs := 2 ^ 1 * 1000 :: (retryLoopFrom tryEnv 2 2).waitsMs } :=
        retryLoopFrom_thrown_retry tryEnv 1 2 m1 h1 hc1 (by norm_num [maxRetries])
      rcases h2 : tryEnv 2 with v2 | m2
      · have e2 : retryLoopFrom tryEnv 2 2 = { value := some v2, attempts := 1, waitsMs := [] } :=
          retryLoopFrom_parsed tryEnv 2 1 v2 h2
        have hl : retryLoop tryEnv = { value := some v2, attempts := 2, waitsMs := [2000] } := by
          show retryLoopFrom tryEnv 1 3 = _
          rw [e2p, e2]
          simp
        rw [hl]
        refine ⟨by norm_num, by norm_num, by simp [List.range_succ], ?_, ?_, hdiv⟩
        · intro i hi
          simp at hi
          have hi0 : i = 0 := by omega
          subst hi0
          exact ⟨m1, h1, hc1⟩
        · intro m hm
          rw [h2] at hm
          simp at hm
      · rcases hc2 : jsIncludes m2 "503" with _ | _
        · have e2 : retryLoopFrom tryEnv 2 2 = { value := none, attempts := 1, waitsMs := [] } :=
            retryLoopFrom_thrown_break tryEnv 2 1 m2 h2 (by simp [hc2])
          have hl : retryLoop tryEnv = { value := none, attempts := 2, waitsMs := [2000] } := by
            show retryLoopFrom tryEnv 1 3 = _
            rw [e2p, e2]
            simp
          rw [hl]
          refine ⟨by norm_num, by norm_num, by simp [List.range_succ], ?_, ?_, hdiv⟩
          · intro i hi
            simp at hi
            have hi0 : i = 0 := by omega
            subst hi0
            exact ⟨m1, h1, hc1⟩
          · intro m hm
            rfl
        · have e3p : retryLoopFrom tryEnv 2 2 =
              { value := (retryLoopFrom tryEnv 3 1).value,
                attempts := (retryLoopFrom tryEnv 3 1).attempts + 1,
                waitsMs := 2 ^ 2 * 1000 :: (retryLoopFrom tryEnv 3 1).waitsMs } :=
            retryLoopFrom_thrown_retry tryEnv 2 1 m2 h2 hc2 (by norm_num [maxRetries])
          rcases h3 : tryEnv 3 with v3 | m3
          · have e3 : retryLoopFrom tryEnv 3 1
                = { value := some v3, attempts := 1, waitsMs := [] } :=
              retryLoopFrom_parsed tryEnv 3 0 v3 h3
            have hl : retryLoop tryEnv
                = { value := some v3, attempts := 3, waitsMs := [2000, 4000] } := by
              show retryLoopFrom tryEnv 1 3 = _
              rw [e2p, e3p, e3]
              simp
            rw [hl]
            refine ⟨by norm_num, by norm_num, by simp [List.range_succ], ?_, ?_, hdiv⟩
            · intro i hi
              simp at hi
              rcases i with _ | _ | i
              · exact ⟨m1, h1, hc1⟩
              · exact ⟨m2, h2, hc2⟩
              · omega
            · intro m hm
              rw [h3] at hm
              simp at hm
          · have e3 : retryLoopFrom tryEnv 3 1
                = { value := none, attempts := 1, waitsMs := [] } :=
              retryLoopFrom_thrown_break tryEnv 3 0 m3 h3 (by simp [maxRetries])
            have hl : retryLoop tryEnv
                = { value := none, attempts := 3, waitsMs := [2000, 4000] } := by
              show retryLoopFrom tryEnv 1 3 = _
              rw [e2p, e3p, e3]
              simp
            rw [hl]
            refine ⟨by norm_num, by norm_num, by simp [List.range_succ], ?_, ?_, hdiv⟩
            · intro i hi
              simp at hi
              rcases i with _ | _ | i
              · exact ⟨m1, h1, hc1⟩
              · exact ⟨m2, h2, hc2⟩
              · omega
            · intro m hm
              rfl

/-- An environment where every attempt throws a 503-classified error. -/
def c8AllUnavailableEnv : Nat → TryOutcome :=
  fun _ => TryOutcome.thrown "503 Service Unavailable"

theorem C8_retry_policy_witness :
    (retryLoop c8AllUnavailableEnv).attempts ≤ 3 ∧
    (retryLoop c8AllUnavailableEnv).waitsMs
      = (List.range ((retryLoop c8AllUnavailableEnv).attempts - 1)).map
          (fun i => 2 ^ (1 + i) * 1000) ∧
    (∃ m, c8AllUnavailableEnv (0 + 1) = TryOutcome.thrown m ∧ jsIncludes m "503" = true) := by
  have h := C8_retry_policy c8AllUnavailableEnv
  exact ⟨h.1, h.2.2.1, h.2.2.2.1 0 (by decide)⟩

/-! ## Persistence-effect lemmas -/

/-- After the bulk deactivation, no active row of the industry passes the
active filter. -/
theorem deactivateJobs_active_filter (st : DbState) (ind : String) :
    (deactivateJobs st ind).jobs.filter (fun j => j.industry == ind && j.isActive) = [] := by
  refine List.filter_eq_nil_iff.mpr ?_
  intro a ha
  have ha2 : a ∈ st.jobs.map (fun j =>
      if j.industry == ind && j.isActive then { j with isActive := false } else j) := ha
  obtain ⟨b, hb, rfl⟩ := List.mem_map.mp ha2
  by_cases h : (b.industry == ind && b.isActive) = true
  · rw [if_pos h]
    simp
  · rw [if_neg h]
    simpa using h

/-- Deactivation leaves zero active rows for the industry. -/
theorem activeJobCount_deactivateJobs (st : DbState) (ind : String) :
    activeJobCount (deactivateJobs st ind) ind = 0 := by
  show ((deactivateJobs st ind).jobs.filter (fun j => j.industry == ind && j.isActive)).length = 0
  rw [deactivateJobs_active_filter]
  rfl

/-- Appending one active row of the industry increments the active count. -/
theorem activeJobCount_snoc_active (jobs : List JobOpportunity) (nid : Nat)
    (row : JobOpportunity) (ind : String)
    (hrow : (row.industry == ind && row.isActive) = true) :
    activeJobCount { jobs := jobs ++ [row], nextId := nid } ind
      = (jobs.filter (fun j => j.industry == ind && j.isActive)).length + 1 := by
  simp [activeJobCount, List.filter_append, hrow]

/-- When every per-row create succeeds, the creation loop adds one active
row of the industry per entry. -/
theorem createJobsFrom_counts (createOk : Nat → Bool) (ind : String) (nowMs : Int)
    (hok : ∀ i, createOk i = true) :
    ∀ (entries : List Json) (idx : Nat) (st : DbState),
      (createJobsFrom createOk ind nowMs idx st entries).jobs.length
        = st.jobs.length + entries.length ∧
      activeJobCount (createJobsFrom createOk ind nowMs idx st entries) ind
        = activeJobCount st ind + entries.length := by
  intro entries
  induction entries with
  | nil => intro idx st; exact ⟨by simp [createJobsFrom], by simp [createJobsFrom]⟩
  | cons e rest ih =>
      intro idx st
      obtain ⟨ih1, ih2⟩ := ih (idx + 1)
        { jobs := st.jobs ++ [jobRowOfJson ind nowMs st.nextId e], nextId := st.nextId + 1 }
      have hstep : createJobsFrom createOk ind nowMs idx st (e :: rest)
          = createJobsFrom createOk ind nowMs (idx + 1)
              { jobs := st.jobs ++ [jobRowOfJson ind nowMs st.nextId e],
                nextId := st.nextId + 1 } rest := by
        simp [createJobsFrom, hok idx]
      have hrow : ((jobRowOfJson ind nowMs st.nextId e).industry == ind &&
          (jobRowOfJson ind nowMs st.nextId e).isActive) = true := by
        simp [jobRowOfJson]
      have hmid : activeJobCount
          { jobs := st.jobs ++ [jobRowOfJson ind nowMs st.nextId e],
            nextId := st.nextId + 1 } ind
          = activeJobCount st ind + 1 :=
        activeJobCount_snoc_active st.jobs (st.nextId + 1) _ ind hrow
      rw [hstep]
      constructor
      · rw [ih1]
        simp
        omega
      · rw [ih2, hmid]
        simp only [List.length_cons]
        omega

/-- Stable descending insertion adds one element. -/
theorem insertPostedDesc_length (j : JobOpportunity) (l : List JobOpportunity) :
    (insertPostedDesc j l).length = l.length + 1 := by
  induction l with
  | nil => rfl
  | cons k rest ih =>
      by_cases h : stringLtB k.postedDate j.postedDate = true
      · simp [insertPostedDesc, h]
      · simp [insertPostedDesc, h, ih]

/-- The insertion-sort fold preserves total length. -/
theorem sortFold_length : ∀ (l acc : List JobOpportunity),
    (l.foldl (fun a j => insertPostedDesc j a) acc).length = acc.length + l.length := by
  intro l
  induction l with
  | nil => intro acc; simp
  | cons j rest ih =>
      intro acc
      simp only [List.foldl_cons, List.length_cons]
      rw [ih, insertPostedDesc_length]
      omega

/-- Sorting preserves length. -/
theorem sortByPostedDateDesc_length (l : List JobOpportunity) :
    (sortByPostedDateDesc l).length = l.length := by
  show (l.foldl (fun a j => insertPostedDesc j a) []).length = l.length
  rw [sortFold_length]
  simp

/-- The fetch returns `min 20` of the industry's active rows. -/
theorem findActiveJobs_length (st : DbState) (ind : String) :
    (findActiveJobs st ind).length = min 20 (activeJobCount st ind) := by
  show ((sortByPostedDateDesc
      (st.jobs.filter (fun j => j.industry == ind && j.isActive))).take 20).length = _
  rw [List.length_take, sortByPostedDateDesc_length]
  rfl

/-- With no rows of the industry at all, the fetch is empty. -/
theorem findActiveJobs_nil_of_no_industry (st : DbState) (ind : String)
    (h : ∀ j ∈ st.jobs, j.industry ≠ ind) : findActiveJobs st ind = [] := by
  have hf : st.jobs.filter (fun j => j.industry == ind && j.isActive) = [] :=
    List.filter_eq_nil_iff.mpr (by intro a ha; simp [h a ha])
  show (sortByPostedDateDesc
      (st.jobs.filter (fun j => j.industry == ind && j.isActive))).take 20 = []
  rw [hf]
  rfl

/-- After deactivation, a row of the industry is never active. -/
theorem deactivateJobs_not_active (st : DbState) (ind : String) :
    ∀ j ∈ (deactivateJobs st ind).jobs, j.industry = ind → j.isActive = false := by
  intro j hj hind
  have hj2 : j ∈ st.jobs.map (fun k =>
      if k.industry == ind && k.isActive then { k with isActive := false } else k) := hj
  obtain ⟨b, hb, rfl⟩ := List.mem_map.mp hj2
  by_cases h : (b.industry == ind && b.isActive) = true
  · rw [if_pos h]
  · rw [if_neg h]
    rw [if_neg h] at hind
    simpa [hind] using h

/-- The creation loop preserves a lower bound on the ids of the industry's
active rows (new rows take fresh ids at or above the counter). -/
theorem createJobsFrom_id_bound (createOk : Nat → Bool) (ind : String) (nowMs : Int)
    (b : Nat) :
    ∀ (entries : List Json) (idx : Nat) (st : DbState), b ≤ st.nextId →
      (∀ j ∈ st.jobs, j.industry = ind → j.isActive = true → b ≤ j.id) →
      ∀ j ∈ (createJobsFrom createOk ind nowMs idx st entries).jobs,
        j.industry = ind → j.isActive = true → b ≤ j.id := by
  intro entries
  induction entries with
  | nil =>
      intro idx st hb hprev
      simpa [createJobsFrom] using hprev
  | cons e rest ih =>
      intro idx st hb hprev
      cases hc : createOk idx with
      | true =>
          have hstep : createJobsFrom createOk ind nowMs idx st (e :: rest)
              = createJobsFrom createOk ind nowMs (idx + 1)
                  { jobs := st.jobs ++ [jobRowOfJson ind nowMs st.nextId e],
                    nextId := st.nextId + 1 } rest := by
            simp [createJobsFrom, hc]
          rw [hstep]
          apply ih (idx + 1)
          · simp
            omega
          · intro j hj hind hact
            rcases (by simpa using hj :
                j ∈ st.jobs ∨ j = jobRowOfJson ind nowMs st.nextId e) with hj1 | hj2
            · exact hprev j hj1 hind hact
            · subst hj2
              simpa [jobRowOfJson] using hb
      | false =>
          have hstep : createJobsFrom createOk ind nowMs idx st (e :: rest)
              = createJobsFrom createOk ind nowMs (idx + 1) st rest := by
            simp [createJobsFrom, hc]
          rw [hstep]
          exact ih (idx + 1) st hb hprev

/-! ## Generation-failure lemmas -/

/-- When the gateway exhausts its models, the try block throws the fixed
message, which is not 503-classified. -/
theorem generateTryOutcome_fail (genEnv : Nat → String → GenOutcome) (a : Nat)
    (h : (DashboardActions.generateWithModelFallback (genEnv a)).result = none) :
    generateTryOutcome genEnv a = TryOutcome.thrown "All Gemini models failed" := by
  simp [generateTryOutcome, h]

/-- A first-attempt gateway exhaustion ends the retry loop at once (its
error message contains no `"503"`) and `generateJobOpportunities` returns
the fallback data. -/
theorem generateJobOpportunities_fallback (genEnv : Nat → String → GenOutcome)
    (feedEnv : JobFeedEnv) (cd ind : String)
    (h : (DashboardActions.generateWithModelFallback (genEnv 1)).result = none) :
    generateJobOpportunities genEnv feedEnv cd ind
      = { value := getRealJobOpportunities feedEnv cd ind, attempts := 1, waitsMs := [],
          usedFallback := true } := by
  have h1 := generateTryOutcome_fail genEnv 1 h
  have hloop : retryLoop (generateTryOutcome genEnv)
      = { value := none, attempts := 1, waitsMs := [] } :=
    retryLoopFrom_thrown_break _ 1 2 _ h1 (by decide)
  simp [generateJobOpportunities, hloop]

/-- The constructed fallback batch always has exactly five entries. -/
theorem realTimeJobs_length (cd ind : String) : (realTimeJobs cd ind).length = 5 := by
  simp [realTimeJobs]

/-- With the RemoteOK feed unavailable, the fallback data is the five
constructed `realTimeJobs`. -/
theorem getRealJobOpportunities_realtime (feedEnv : JobFeedEnv) (cd ind : String)
    (hfeed : feedEnv.remoteOkJobs = none) :
    getRealJobOpportunities feedEnv cd ind
      = Json.obj [("jobs", Json.arr (realTimeJobs cd ind))] := by
  have h5 : (realTimeJobs cd ind).length = 5 := realTimeJobs_length cd ind
  simp [getRealJobOpportunities, fetchRealTimeJobs, fetchFromJobAPIs, scrapeJobSites,
    fetchFromJobFeeds, hfeed, h5]

/-- The `jobs`-array guard accepts a well-shaped jobs object. -/
theorem jobsArrayEntries_obj (xs : List Json) :
    jobsArrayEntries (Json.obj [("jobs", Json.arr xs)]) = some xs := by
  simp [jobsArrayEntries, Json.getField, Json.isTruthy, Json.isArr, Json.asArr, List.lookup]

/-! ## Read-path theorems (C6, C1, C9, C2) -/

/-- C6: when the industry has existing active records and every one of them
is younger than the TTL, the read path returns exactly the set fetched in
step 1 unmodified, performs zero gateway invocations, and leaves the store
unchanged. -/
theorem C6_fresh_serves_existing (env : RefreshEnv) (nowMs : Int) (cd ind : String)
    (st : DbState)
    (hne : findActiveJobs st ind ≠ [])
    (hyoung : ∀ j ∈ findActiveJobs st ind, nowMs - j.createdAt ≤ jobTtlMs) :
    getJobOpportunities env nowMs cd ind st
      = { returned := findActiveJobs st ind, db := st, gatewayInvocations := 0 } := by
  have hfresh : shouldFetchNew (findActiveJobs st ind) nowMs = false := by
    cases hlist : findActiveJobs st ind with
    | nil => exact absurd hlist hne
    | cons first rest =>
        have hf : first ∈ findActiveJobs st ind := by
          rw [hlist]; exact List.mem_cons_self _ _
        have h1 := hyoung first hf
        simp [shouldFetchNew]
        omega
  simp [getJobOpportunities, hfresh]

/-- A fresh single-record store for the C6 witness. -/
def c6Job : JobOpportunity := mkJob 1 "tech" "2026-01-10" 0 true

/-- The store holding only `c6Job`. -/
def c6State : DbState := { jobs := [c6Job], nextId := 2 }

/-- An environment whose gateway always fails (irrelevant on the fresh
path, which must not invoke it). -/
def c6Env : RefreshEnv :=
  { genEnv := fun _ _ => GenOutcome.failure "boom" none,
    feedEnv := { remoteOkJobs := none }, createOk := fun _ => true }

theorem C6_fresh_serves_existing_witness :
    getJobOpportunities c6Env 0 "2026-01-15" "tech" c6State
      = { returned := findActiveJobs c6State "tech", db := c6State,
          gatewayInvocations := 0 } ∧
    findActiveJobs c6State "tech" = [c6Job] :=
  ⟨C6_fresh_serves_existing c6Env 0 "2026-01-15" "tech" c6State (by decide) (by decide),
   by decide⟩

/-- On a due refresh whose generation fails (gateway exhausted on the first
attempt) with the RemoteOK feed unavailable, the read path's result is:
deactivate everything, create the five fallback rows, re-query. -/
theorem refresh_on_failure_persists_fallback (env : RefreshEnv) (nowMs : Int)
    (cd ind : String) (st : DbState)
    (hstale : shouldFetchNew (findActiveJobs st ind) nowMs = true)
    (hgen : (DashboardActions.generateWithModelFallback (env.genEnv 1)).result = none)
    (hfeed : env.feedEnv.remoteOkJobs = none) :
    getJobOpportunities env nowMs cd ind st
      = { returned := findActiveJobs (createJobsFrom env.createOk ind nowMs 0
            (deactivateJobs st ind) (realTimeJobs cd ind)) ind,
          db := createJobsFrom env.createOk ind nowMs 0 (deactivateJobs st ind)
            (realTimeJobs cd ind),
          gatewayInvocations := 1 } := by
  have hgo := generateJobOpportunities_fallback env.genEnv env.feedEnv cd ind hgen
  have hreal := getRealJobOpportunities_realtime env.feedEnv cd ind hfeed
  have hent := jobsArrayEntries_obj (realTimeJobs cd ind)
  simp [getJobOpportunities, hstale, hgo, hreal, hent]

/-- C1, amended: when a refresh is due and the generation fails,
`generateJobOpportunities` substitutes the built-in fallback batch instead
of throwing; the read path therefore deactivates the previously active
records and persists the five fallback rows (assuming per-row creates
succeed and the RemoteOK feed is unavailable): one gateway invocation, five
new rows persisted, five active rows — all with fresh ids — and a returned
set of those five rows, NOT the set fetched in step 1. -/
theorem C1_failure_replaces_with_fallback (env : RefreshEnv) (nowMs : Int)
    (cd ind : String) (st : DbState)
    (hstale : shouldFetchNew (findActiveJobs st ind) nowMs = true)
    (hgen : (DashboardActions.generateWithModelFallback (env.genEnv 1)).result = none)
    (hfeed : env.feedEnv.remoteOkJobs = none)
    (hok : ∀ i, env.createOk i = true) :
    (getJobOpportunities env nowMs cd ind st).gatewayInvocations = 1 ∧
    activeJobCount (getJobOpportunities env nowMs cd ind st).db ind = 5 ∧
    (getJobOpportunities env nowMs cd ind st).returned.length = 5 ∧
    (getJobOpportunities env nowMs cd ind st).db.jobs.length = st.jobs.length + 5 ∧
    (∀ j ∈ (getJobOpportunities env nowMs cd ind st).db.jobs,
      j.industry = ind → j.isActive = true → st.nextId ≤ j.id) := by
  have hrun := refresh_on_failure_persists_fallback env nowMs cd ind st hstale hgen hfeed
  rw [hrun]
  obtain ⟨hlen, hcount⟩ := createJobsFrom_counts env.createOk ind nowMs hok
    (realTimeJobs cd ind) 0 (deactivateJobs st ind)
  have hdeact0 := activeJobCount_deactivateJobs st ind
  have h5 := realTimeJobs_length cd ind
  have hdlen : (deactivateJobs st ind).jobs.length = st.jobs.length := by
    simp [deactivateJobs]
  refine ⟨rfl, ?_, ?_, ?_, ?_⟩
  · rw [hcount, hdeact0, h5]
  · rw [findActiveJobs_length, hcount, hdeact0, h5]
    omega
  · rw [hlen, hdlen, h5]
  · apply createJobsFrom_id_bound env.createOk ind nowMs st.nextId (realTimeJobs cd ind) 0
      (deactivateJobs st ind) (le_refl _)
    intro j hj hind hact
    exact absurd (deactivateJobs_not_active st ind j hj hind) (by simp [hact])

/-- A four-day-old active record for the C1 scenario. -/
def c1StaleJob : JobOpportunity := mkJob 1 "finance" "2020-01-01" (-(4 * dayMs)) true

/-- The store holding only `c1StaleJob`. -/
def c1State : DbState := { jobs := [c1StaleJob], nextId := 2 }

/-- An environment whose gateway always fails and whose feed is down. -/
def c1FailEnv : RefreshEnv :=
  { genEnv := fun _ _ => GenOutcome.failure "boom" none,
    feedEnv := { remoteOkJobs := none }, createOk := fun _ => true }

theorem C1_failure_replaces_with_fallback_witness :
    (getJobOpportunities c1FailEnv 0 "2026-01-15" "finance" c1State).gatewayInvocations = 1 ∧
    activeJobCount (getJobOpportunities c1FailEnv 0 "2026-01-15" "finance" c1State).db
      "finance" = 5 ∧
    (getJobOpportunities c1FailEnv 0 "2026-01-15" "finance" c1State).returned.length = 5 ∧
    (getJobOpportunities c1FailEnv 0 "2026-01-15" "finance" c1State).db.jobs.length
      = c1State.jobs.length + 5 ∧
    (∀ j ∈ (getJobOpportunities c1FailEnv 0 "2026-01-15" "finance" c1State).db.jobs,
      j.industry = "finance" → j.isActive = true → c1State.nextId ≤ j.id) :=
  C1_failure_replaces_with_fallback c1FailEnv 0 "2026-01-15" "finance" c1State
    (by decide) (by decide) rfl (fun _ => rfl)

/-- Counterexample for C1 as stated: refresh due, generation failing at
every model — yet the read path does NOT return the previously existing set
unchanged, and five new records are persisted in place of it. -/
theorem C1_counterexample :
    shouldFetchNew (findActiveJobs c1State "finance") 0 = true ∧
    (DashboardActions.generateWithModelFallback (c1FailEnv.genEnv 1)).result = none ∧
    (getJobOpportunities c1FailEnv 0 "2026-01-15" "finance" c1State).returned
      ≠ findActiveJobs c1State "finance" ∧
    (getJobOpportunities c1FailEnv 0 "2026-01-15" "finance" c1State).db ≠ c1State ∧
    (getJobOpportunities c1FailEnv 0 "2026-01-15" "finance" c1State).db.jobs.length
      = c1State.jobs.length + 5 := by
  decide

/-- C9, amended: on a cold start (no records of the industry) whose
generation also fails, the read path does not surface an error (the model
is total) but it does NOT surface an empty result either: it persists and
returns the five built-in fallback records (RemoteOK feed unavailable,
creates succeeding). -/
theorem C9_cold_start_serves_fallback (env : RefreshEnv) (nowMs : Int)
    (cd ind : String) (st : DbState)
    (hcold : ∀ j ∈ st.jobs, j.industry ≠ ind)
    (hgen : (DashboardActions.generateWithModelFallback (env.genEnv 1)).result = none)
    (hfeed : env.feedEnv.remoteOkJobs = none)
    (hok : ∀ i, env.createOk i = true) :
    (getJobOpportunities env nowMs cd ind st).returned.length = 5 ∧
    (getJobOpportunities env nowMs cd ind st).returned ≠ [] ∧
    activeJobCount (getJobOpportunities env nowMs cd ind st).db ind = 5 := by
  have hnil := findActiveJobs_nil_of_no_industry st ind hcold
  have hstale : shouldFetchNew (findActiveJobs st ind) nowMs = true := by
    rw [hnil]; rfl
  have hrun := refresh_on_failure_persists_fallback env nowMs cd ind st hstale hgen hfeed
  rw [hrun]
  obtain ⟨hlen, hcount⟩ := createJobsFrom_counts env.createOk ind nowMs hok
    (realTimeJobs cd ind) 0 (deactivateJobs st ind)
  have hdeact0 := activeJobCount_deactivateJobs st ind
  have h5 := realTimeJobs_length cd ind
  have hretlen : (findActiveJobs (createJobsFrom env.createOk ind nowMs 0
      (deactivateJobs st ind) (realTimeJobs cd ind)) ind).length = 5 := by
    rw [findActiveJobs_length, hcount, hdeact0, h5]
    omega
  refine ⟨hretlen, ?_, by rw [hcount, hdeact0, h5]⟩
  intro h
  have h2 : findActiveJobs (createJobsFrom env.createOk ind nowMs 0
      (deactivateJobs st ind) (realTimeJobs cd ind)) ind = [] := h
  rw [h2] at hretlen
  simp at hretlen

/-- An empty store for the C9 cold-start scenario. -/
def c9State : DbState := { jobs := [], nextId := 1 }

/-- An environment whose gateway always fails and whose feed is down. -/
def c9FailEnv : RefreshEnv :=
  { genEnv := fun _ _ => GenOutcome.failure "boom" none,
    feedEnv := { remoteOkJobs := none }, createOk := fun _ => true }

theorem C9_cold_start_serves_fallback_witness :
    (getJobOpportunities c9FailEnv 0 "2026-01-15" "finance" c9State).returned.length = 5 ∧
    (getJobOpportunities c9FailEnv 0 "2026-01-15" "finance" c9State).returned ≠ [] ∧
    activeJobCount (getJobOpportunities c9FailEnv 0 "2026-01-15" "finance" c9State).db
      "finance" = 5 :=
  C9_cold_start_serves_fallback c9FailEnv 0 "2026-01-15" "finance" c9State
    (by decide) (by decide) rfl (fun _ => rfl)

/-- Counterexample for C9 as stated: on a cold start with generation
failing, the result is not empty — it is the five fabricated fallback
records, persisted as active rows. -/
theorem C9_counterexample :
    findActiveJobs c9State "finance" = [] ∧
    (DashboardActions.generateWithModelFallback (c9FailEnv.genEnv 1)).result = none ∧
    (getJobOpportunities c9FailEnv 0 "2026-01-15" "finance" c9State).returned ≠ [] ∧
    (getJobOpportunities c9FailEnv 0 "2026-01-15" "finance" c9State).returned.length = 5 := by
  decide

/-- C2, amended: deactivation is not coupled to successful creation.  On
the read path a due refresh deactivates all active rows and then creates
rows only if the generated object carries a truthy `jobs` array: with no
such array the industry ends with ZERO active rows; with an array and
succeeding creates it ends with exactly one active row per entry.  The
manual route deactivates before even generating, so a generated object
without a `jobs` array likewise leaves zero active rows. -/
theorem C2_deactivation_not_coupled (env : RefreshEnv) (nowMs : Int) (cd ind : String)
    (st : DbState) :
    (shouldFetchNew (findActiveJobs st ind) nowMs = true →
      jobsArrayEntries (generateJobOpportunities env.genEnv env.feedEnv cd ind).value = none →
      activeJobCount (getJobOpportunities env nowMs cd ind st).db ind = 0) ∧
    (∀ entries, shouldFetchNew (findActiveJobs st ind) nowMs = true →
      jobsArrayEntries (generateJobOpportunities env.genEnv env.feedEnv cd ind).value
        = some entries →
      (∀ i, env.createOk i = true) →
      activeJobCount (getJobOpportunities env nowMs cd ind st).db ind = entries.length) ∧
    (jobsArrayEntries (generateJobOpportunities env.genEnv env.feedEnv cd ind).value = none →
      activeJobCount (manualUpdateIndustry env nowMs cd st ind).1 ind = 0) := by
  refine ⟨?_, ?_, ?_⟩
  · intro hstale hnone
    simp [getJobOpportunities, hstale, hnone, activeJobCount_deactivateJobs]
  · intro entries hstale hsome hok
    have hc := (createJobsFrom_counts env.createOk ind nowMs hok entries 0
      (deactivateJobs st ind)).2
    simp [getJobOpportunities, hstale, hsome, hc, activeJobCount_deactivateJobs]
  · intro hnone
    simp [manualUpdateIndustry, hnone, activeJobCount_deactivateJobs]

/-- A store with one stale active record for the C2 scenario. -/
def c2State : DbState := { jobs := [mkJob 1 "finance" "2020-01-01" (-(4 * dayMs)) true], nextId := 2 }

/-- An environment whose gateway succeeds with `"\x7b\x7d"` — a well-formed
JSON object carrying no `jobs` array. -/
def c2EmptyObjEnv : RefreshEnv :=
  { genEnv := fun _ _ => GenOutcome.success "\x7b\x7d",
    feedEnv := { remoteOkJobs := none }, createOk := fun _ => true }

theorem C2_deactivation_not_coupled_witness :
    activeJobCount (getJobOpportunities c2EmptyObjEnv 0 "2026-01-15" "finance" c2State).db
      "finance" = 0 :=
  (C2_deactivation_not_coupled c2EmptyObjEnv 0 "2026-01-15" "finance" c2State).1
    (by decide) rfl

/-- Counterexample for C2 as stated: an industry that starts with one
active record and undergoes a refresh (read path, and likewise the manual
route) ends with zero active records when the generated object parses but
has no `jobs` list. -/
theorem C2_counterexample :
    activeJobCount c2State "finance" = 1 ∧
    shouldFetchNew (findActiveJobs c2State "finance") 0 = true ∧
    activeJobCount (getJobOpportunities c2EmptyObjEnv 0 "2026-01-15" "finance" c2State).db
      "finance" = 0 ∧
    activeJobCount (manualUpdateIndustry c2EmptyObjEnv 0 "2026-01-15" c2State "finance").1
      "finance" = 0 := by
  decide
